import Mathlib

/-!
Verification of the Chemical Company content API (`src/main.py`,
`src/schemas.py`) against its specification.

Records of the schemaless document store are modelled as association
lists from field names to values; values occurring in this API are
strings, lists of strings, or null.  The store accessor (`database.py`,
providing `db`, `get_documents` and `create_document`) is not part of
the sources, so its behaviour is modelled from the specification's
description of the generic document-store accessor (spec section 4.2).
The request handlers are translated directly from `src/main.py` and the
schema validators from `src/schemas.py`.
-/

/-- A value stored in a document field: a string, a list of strings, or null. -/
inductive Value where
  | vStr : String → Value
  | vList : List String → Value
  | vNull : Value
deriving DecidableEq

/-- A stored record: an association list from field names to values
(modelling a JSON object / Mongo document with unique keys). -/
abbrev Doc := List (String × Value)

/-- Look up a field in a document (first occurrence). -/
def lookupField : Doc → String → Option Value
  | [], _ => none
  | kv :: t, f => if kv.1 = f then some kv.2 else lookupField t f

/-- `item.pop("_id", None)`: remove the store-internal identifier field. -/
def popId (d : Doc) : Doc :=
  d.filter (fun kv => kv.1 ≠ "_id")

/-- Whether `needle` occurs as a contiguous sublist of `hay`. -/
def containsSub (hay needle : List Char) : Bool :=
  match hay with
  | [] => needle.isEmpty
  | _ :: t => List.isPrefixOf needle hay || containsSub t needle

/-- Case-insensitive substring test: does `needle` occur in `hay`,
ignoring letter case? -/
def ciContains (hay needle : String) : Bool :=
  containsSub (hay.toList.map Char.toLower) (needle.toList.map Char.toLower)

/-- Python truthiness of an optional query parameter: `None` and the
empty string are falsy (`if category:` in `src/main.py`). -/
def truthy : Option String → Bool
  | none => false
  | some s => s ≠ ""

/-- Modelled from the spec: the filter conditions the store accessor
(`database.py`, absent from the sources) understands, per spec section 4.2:
exact match on a field (which on a list-valued field means membership of
the stored list), and a reserved key meaning "the text appears,
case-insensitively, as a substring in any of a listed set of fields"
(the `$or`/`$regex` dictionary built by `list_products`). -/
inductive Cond where
  | eq (field : String) (value : String)
  | substrAny (fields : List String) (text : String)

/-- Exact-match semantics on one field: equality for a stored string,
membership for a stored list (spec section 4.2). -/
def matchesEq (d : Doc) (field value : String) : Bool :=
  match lookupField d field with
  | some (Value.vStr s) => s == value
  | some (Value.vList l) => l.contains value
  | _ => false

/-- Case-insensitive substring match over a set of fields: a stored
string matches when it contains the text, a stored list matches when
some element contains it (spec section 4.2). -/
def matchesSubstrAny (d : Doc) (fields : List String) (text : String) : Bool :=
  fields.any (fun f =>
    match lookupField d f with
    | some (Value.vStr s) => ciContains s text
    | some (Value.vList l) => l.any (fun s => ciContains s text)
    | _ => false)

/-- Whether a document satisfies one filter condition. -/
def matchesCond (d : Doc) : Cond → Bool
  | Cond.eq field value => matchesEq d field value
  | Cond.substrAny fields text => matchesSubstrAny d fields text

/-- Modelled from the spec: `get_documents(collection, filter, limit)` of the
absent `database.py` — `find_many` of spec section 4.2: returns the records of
the collection satisfying every filter condition, in insertion order,
truncated to `limit` when given; an empty filter returns all records. -/
def get_documents (store : List Doc) (flt : List Cond := [])
    (limit : Option Nat := none) : List Doc :=
  let matched := store.filter (fun d => flt.all (fun c => matchesCond d c))
  match limit with
  | some n => matched.take n
  | none => matched

/-- `_serialize_list` from `src/main.py`: strip `_id` from every record. -/
def serialize_list (items : List Doc) : List Doc :=
  items.map popId

/-- `list_categories` from `src/main.py`. -/
def list_categories (store : List Doc) : List Doc :=
  serialize_list (get_documents store)

/-- The four fields searched by the product free-text filter. -/
def productSearchFields : List String :=
  ["name", "summary", "description", "keywords"]

/-- `list_products` from `src/main.py`: optional exact `category` filter and
optional case-insensitive substring search `q` over name/summary/description/
keywords. -/
def list_products (store : List Doc) (category : Option String)
    (q : Option String) : List Doc :=
  let flt :=
    (if truthy category then [Cond.eq "category" (category.getD "")] else []) ++
    (if truthy q then [Cond.substrAny productSearchFields (q.getD "")] else [])
  serialize_list (get_documents store flt)

/-- `get_product` from `src/main.py`: lookup by slug with limit 1;
404 `"Product not found"` when no record matches. -/
def get_product (store : List Doc) (slug : String) :
    Except (Nat × String) Doc :=
  match get_documents store [Cond.eq "slug" slug] (some 1) with
  | [] => Except.error (404, "Product not found")
  | item :: _ => Except.ok (popId item)

/-- `list_sectors` from `src/main.py`. -/
def list_sectors (store : List Doc) : List Doc :=
  serialize_list (get_documents store)

/-- `get_sector` from `src/main.py`. -/
def get_sector (store : List Doc) (slug : String) :
    Except (Nat × String) Doc :=
  match get_documents store [Cond.eq "slug" slug] (some 1) with
  | [] => Except.error (404, "Sector not found")
  | item :: _ => Except.ok (popId item)

/-- `list_news` from `src/main.py`: optional `tag` filter; an exact-match
filter on the list-valued `tags` field, i.e. membership. -/
def list_news (store : List Doc) (tag : Option String) : List Doc :=
  let flt := if truthy tag then [Cond.eq "tags" (tag.getD "")] else []
  serialize_list (get_documents store flt)

/-- `list_documents` from `src/main.py`: optional exact filters on
`product_slug` (query parameter `product`), `category` and `language`. -/
def list_documents (store : List Doc) (product : Option String)
    (category : Option String) (language : Option String) : List Doc :=
  let flt :=
    (if truthy product then [Cond.eq "product_slug" (product.getD "")] else []) ++
    (if truthy category then [Cond.eq "category" (category.getD "")] else []) ++
    (if truthy language then [Cond.eq "language" (language.getD "")] else [])
  serialize_list (get_documents store flt)

/-- `list_jobs` from `src/main.py`: optional exact `department` filter. -/
def list_jobs (store : List Doc) (department : Option String) : List Doc :=
  let flt := if truthy department then [Cond.eq "department" (department.getD "")] else []
  serialize_list (get_documents store flt)

/-- `get_company` from `src/main.py`: first record of the `companyprofile`
collection, or the fallback `{"company_name": "Azienda Chimica"}` when the
collection is empty; never a 404. -/
def get_company (store : List Doc) : Doc :=
  match get_documents store [] (some 1) with
  | [] => [("company_name", Value.vStr "Azienda Chimica")]
  | item :: _ => popId item

/-! ## Schema / validation layer (`src/schemas.py`)

Pydantic validation is modelled field by field: a required `str` field must
be present as a string; an optional `str` field may be absent or null
(yielding `none`); an optional `List[str]` field with `default_factory=list`
yields the empty list when absent and `none` when explicitly null.
Validation errors accumulate the names of all offending fields
(spec section 4.1: a `ValidationError` enumerating every offending field). -/

/-- Extract a required string field; the field name is reported when the
field is missing, null, or not a string. -/
def getReqStr (input : Doc) (f : String) : Except (List String) String :=
  match lookupField input f with
  | some (Value.vStr s) => Except.ok s
  | _ => Except.error [f]

/-- Extract an optional string field (`Optional[str] = None`). -/
def getOptStr (input : Doc) (f : String) : Except (List String) (Option String) :=
  match lookupField input f with
  | none => Except.ok none
  | some Value.vNull => Except.ok none
  | some (Value.vStr s) => Except.ok (some s)
  | some (Value.vList _) => Except.error [f]

/-- Extract an optional list field
(`Optional[List[str]] = Field(default_factory=list)`): absent defaults to
the empty list, explicit null yields `none`. -/
def getOptList (input : Doc) (f : String) :
    Except (List String) (Option (List String)) :=
  match lookupField input f with
  | none => Except.ok (some [])
  | some Value.vNull => Except.ok none
  | some (Value.vList l) => Except.ok (some l)
  | some (Value.vStr _) => Except.error [f]

/-- Combine two field validations, accumulating the offending fields of
both sides on failure. -/
def vPair {α β : Type} :
    Except (List String) α → Except (List String) β →
    Except (List String) (α × β)
  | Except.ok a, Except.ok b => Except.ok (a, b)
  | Except.error e1, Except.error e2 => Except.error (e1 ++ e2)
  | Except.error e1, Except.ok _ => Except.error e1
  | Except.ok _, Except.error e2 => Except.error e2

/-- `Product` from `src/schemas.py`. -/
structure Product where
  name : String
  slug : String
  category : String
  summary : Option String
  description : Option String
  applications : Option (List String)
  benefits : Option (List String)
  sectors : Option (List String)
  documentation_urls : Option (List String)
  keywords : Option (List String)
  image_url : Option String
deriving DecidableEq

/-- Validate a raw input object against the `Product` schema. -/
def validateProduct (input : Doc) : Except (List String) Product :=
  match vPair (vPair (vPair (getReqStr input "name") (getReqStr input "slug"))
      (vPair (getReqStr input "category") (getOptStr input "summary")))
    (vPair (vPair (vPair (getOptStr input "description") (getOptList input "applications"))
      (vPair (getOptList input "benefits") (getOptList input "sectors")))
      (vPair (vPair (getOptList input "documentation_urls") (getOptList input "keywords"))
        (getOptStr input "image_url"))) with
  | Except.error e => Except.error e
  | Except.ok (((n, sl), (c, su)), ((de, ap), (be, se)), ((du, ke), im)) =>
      Except.ok ⟨n, sl, c, su, de, ap, be, se, du, ke, im⟩

/-- `Sector` from `src/schemas.py`. -/
structure Sector where
  name : String
  slug : String
  challenges : Option (List String)
  needs : Option (List String)
  solutions : Option (List String)
  outcomes : Option (List String)
  image_url : Option String
deriving DecidableEq

/-- Validate a raw input object against the `Sector` schema. -/
def validateSector (input : Doc) : Except (List String) Sector :=
  match vPair (vPair (vPair (getReqStr input "name") (getReqStr input "slug"))
      (vPair (getOptList input "challenges") (getOptList input "needs")))
    (vPair (getOptList input "solutions")
      (vPair (getOptList input "outcomes") (getOptStr input "image_url"))) with
  | Except.error e => Except.error e
  | Except.ok (((n, sl), (ch, ne)), (so, (ou, im))) =>
      Except.ok ⟨n, sl, ch, ne, so, ou, im⟩

/-- A calendar date, for the `published_at : Optional[date]` field of `News`. -/
structure CalDate where
  year : Nat
  month : Nat
  day : Nat
deriving DecidableEq

/-- Gregorian leap-year rule. -/
def isLeapYear (y : Nat) : Bool :=
  (y % 4 = 0 && y % 100 ≠ 0) || y % 400 = 0

/-- Number of days in a month of a given year. -/
def daysInMonth (y m : Nat) : Nat :=
  if m = 2 then (if isLeapYear y then 29 else 28)
  else if m = 4 || m = 6 || m = 9 || m = 11 then 30
  else 31

/-- Parse an ISO `YYYY-MM-DD` date string, checking calendar validity
(the date format pydantic accepts for a JSON `date` field). -/
def parseDate (s : String) : Option CalDate :=
  match s.splitOn "-" with
  | [y, m, d] =>
      if y.length = 4 && m.length = 2 && d.length = 2 then
        match y.toNat?, m.toNat?, d.toNat? with
        | some yn, some mn, some dn =>
            if 1 ≤ mn && mn ≤ 12 && 1 ≤ dn && dn ≤ daysInMonth yn mn then
              some ⟨yn, mn, dn⟩
            else none
        | _, _, _ => none
      else none
  | _ => none

/-- Extract an optional date field (`Optional[date] = None`): absent or null
yields `none`, a string must parse as a valid date. -/
def getOptDate (input : Doc) (f : String) :
    Except (List String) (Option CalDate) :=
  match lookupField input f with
  | none => Except.ok none
  | some Value.vNull => Except.ok none
  | some (Value.vStr s) =>
      match parseDate s with
      | some dt => Except.ok (some dt)
      | none => Except.error [f]
  | some (Value.vList _) => Except.error [f]

/-- `News` from `src/schemas.py`. -/
structure News where
  title : String
  slug : String
  excerpt : Option String
  content : Option String
  cover_image_url : Option String
  published_at : Option CalDate
  tags : Option (List String)
deriving DecidableEq

/-- Validate a raw input object against the `News` schema. -/
def validateNews (input : Doc) : Except (List String) News :=
  match vPair (vPair (vPair (getReqStr input "title") (getReqStr input "slug"))
      (vPair (getOptStr input "excerpt") (getOptStr input "content")))
    (vPair (getOptStr input "cover_image_url")
      (vPair (getOptDate input "published_at") (getOptList input "tags"))) with
  | Except.error e => Except.error e
  | Except.ok (((t, sl), (ex, co)), (ci, (pa, tg))) =>
      Except.ok ⟨t, sl, ex, co, ci, pa, tg⟩

/-- `CompanyProfile` from `src/schemas.py`. -/
structure CompanyProfile where
  company_name : String
  mission : Option String
  vision : Option String
  values : Option (List String)
  history : Option String
  facilities : Option (List String)
  locations : Option (List String)
  quality_approach : Option String
  safety_approach : Option String
  innovation_approach : Option String
deriving DecidableEq

/-- Validate a raw input object against the `CompanyProfile` schema. -/
def validateCompanyProfile (input : Doc) :
    Except (List String) CompanyProfile :=
  match vPair (vPair (vPair (getReqStr input "company_name") (getOptStr input "mission"))
      (vPair (getOptStr input "vision") (getOptList input "values")))
    (vPair (vPair (getOptStr input "history") (getOptList input "facilities"))
      (vPair (vPair (getOptList input "locations") (getOptStr input "quality_approach"))
        (vPair (getOptStr input "safety_approach") (getOptStr input "innovation_approach")))) with
  | Except.error e => Except.error e
  | Except.ok (((cn, mi), (vi, va)), ((hi, fa), ((lo, qa), (sa, ia)))) =>
      Except.ok ⟨cn, mi, vi, va, hi, fa, lo, qa, sa, ia⟩

/-- `Job` from `src/schemas.py`. -/
structure Job where
  title : String
  slug : String
  location : Option String
  department : Option String
  type : Option String
  description : Option String
  requirements : Option (List String)
deriving DecidableEq

/-- Validate a raw input object against the `Job` schema. -/
def validateJob (input : Doc) : Except (List String) Job :=
  match vPair (vPair (vPair (getReqStr input "title") (getReqStr input "slug"))
      (vPair (getOptStr input "location") (getOptStr input "department")))
    (vPair (getOptStr input "type")
      (vPair (getOptStr input "description") (getOptList input "requirements"))) with
  | Except.error e => Except.error e
  | Except.ok (((t, sl), (lo, dep)), (ty, (de, re))) =>
      Except.ok ⟨t, sl, lo, dep, ty, de, re⟩

/-- `Application` from `src/schemas.py`. -/
structure Application where
  name : String
  email : String
  phone : Option String
  job_slug : Option String
  message : Option String
  cv_url : Option String
  linkedin_url : Option String
deriving DecidableEq

/-- Validate a raw input object against the `Application` schema:
`name` and `email` are required strings, the rest optional strings. -/
def validateApplication (input : Doc) : Except (List String) Application :=
  match vPair (vPair (vPair (getReqStr input "name") (getReqStr input "email"))
      (vPair (getOptStr input "phone") (getOptStr input "job_slug")))
    (vPair (getOptStr input "message")
      (vPair (getOptStr input "cv_url") (getOptStr input "linkedin_url"))) with
  | Except.error e => Except.error e
  | Except.ok (((n, em), (ph, js)), (ms, (cv, li))) =>
      Except.ok ⟨n, em, ph, js, ms, cv, li⟩

/-- Render a validated `Application` back as a stored record. -/
def Application.toDoc (a : Application) : Doc :=
  [("name", Value.vStr a.name), ("email", Value.vStr a.email),
   ("phone", (a.phone.map Value.vStr).getD Value.vNull),
   ("job_slug", (a.job_slug.map Value.vStr).getD Value.vNull),
   ("message", (a.message.map Value.vStr).getD Value.vNull),
   ("cv_url", (a.cv_url.map Value.vStr).getD Value.vNull),
   ("linkedin_url", (a.linkedin_url.map Value.vStr).getD Value.vNull)]

/-- Modelled from the spec: `create_document` of the absent `database.py` —
`insert_one` of spec section 4.2: persists the validated record verbatim at
the end of the collection (insertion order); the store-internal identifier
assignment is abstracted away. -/
def create_document (store : List Doc) (record : Doc) : List Doc :=
  store ++ [record]

/-- Outcome of a write endpoint: either the FastAPI/Pydantic validation
rejection (a 4xx listing the offending fields, produced before the handler
body runs) or the handler's `{"status": "ok"}` acknowledgement. -/
inductive SubmitResult where
  | validationError (fields : List String)
  | ok (status : String)
deriving DecidableEq

/-- `submit_application` from `src/main.py`, together with the schema
validation FastAPI performs before invoking it: on validation failure the
store is untouched and a 4xx is returned; on success the validated payload
is inserted into the `application` collection and `{"status": "ok"}`
returned. -/
def submit_application (store : List Doc) (input : Doc) :
    List Doc × SubmitResult :=
  match validateApplication input with
  | Except.error errs => (store, SubmitResult.validationError errs)
  | Except.ok payload =>
      (create_document store (Application.toDoc payload), SubmitResult.ok "ok")

/-! ## Diagnostic endpoint (`GET /test`, `src/main.py`)

The store handle `db` comes from the absent `database.py`; it is modelled
from the spec as either unset (`None`) or a connection carrying an optional
database name and the outcome of probing `list_collection_names()` — a list
of collection names or a raised exception rendered by its message. -/

/-- Modelled from the spec: the process-wide store connection of the absent
`database.py` — an optional name attribute and the result of
`list_collection_names()` (a list of names, or the message of the exception
the probe raises). -/
structure DbConn where
  name : Option String
  collectionsResult : Except String (List String)

/-- The JSON object returned by `GET /test`. -/
structure TestResponse where
  backend : String
  database : String
  database_url : String
  database_name : String
  connection_status : String
  collections : List String
deriving DecidableEq

/-- `test_database` from `src/main.py`: builds a default response, then
fills in connection status; any probe failure is caught and rendered as a
status string with the error text truncated to 50 characters; at most the
first 10 collection names are listed; finally the two environment flags are
reported as set / not set. Total: it never raises. -/
def test_database (db : Option DbConn) (url_set name_set : Bool) :
    TestResponse :=
  let r0 : TestResponse :=
    { backend := "✅ Running"
      database := "❌ Not Available"
      database_url := ""
      database_name := ""
      connection_status := "Not Connected"
      collections := [] }
  let r1 :=
    match db with
    | some conn =>
        let r :=
          { r0 with
            database := "✅ Available"
            database_url := "✅ Configured"
            database_name := conn.name.getD "✅ Connected"
            connection_status := "Connected" }
        match conn.collectionsResult with
        | Except.ok collections =>
            { r with
              collections := collections.take 10
              database := "✅ Connected & Working" }
        | Except.error e =>
            { r with database := "⚠️  Connected but Error: " ++ e.take 50 }
    | none => { r0 with database := "⚠️  Available but not initialized" }
  { r1 with
    database_url := if url_set then "✅ Set" else "❌ Not Set"
    database_name := if name_set then "✅ Set" else "❌ Not Set" }

/-! ## Helper lemmas -/

/-- After `popId`, the internal identifier field is gone. -/
theorem lookupField_popId (d : Doc) : lookupField (popId d) "_id" = none := by
  induction d with
  | nil => rfl
  | cons kv t ih =>
      by_cases h : kv.1 = "_id"
      · simpa [popId, List.filter_cons, h] using ih
      · simpa [popId, List.filter_cons, h, lookupField] using ih

/-- Members of a serialized list come from the input list via `popId`. -/
theorem mem_serialize_list {items : List Doc} {d : Doc}
    (h : d ∈ serialize_list items) : ∃ x ∈ items, d = popId x := by
  rcases List.mem_map.mp h with ⟨x, hx, hxd⟩
  exact ⟨x, hx, hxd.symm⟩

/-- Members of a serialized list carry no internal identifier. -/
theorem mem_serialize_list_no_id {items : List Doc} {d : Doc}
    (h : d ∈ serialize_list items) : lookupField d "_id" = none := by
  rcases mem_serialize_list h with ⟨x, _, rfl⟩
  exact lookupField_popId x

/-! ## Sample data for witnesses -/

/-- A small concrete store used to instantiate the theorems. -/
def sampleStore : List Doc :=
  [[("_id", Value.vStr "65a1"), ("slug", Value.vStr "p1"),
    ("name", Value.vStr "Acid Cleaner"), ("category", Value.vStr "cleaners")],
   [("_id", Value.vStr "65a2"), ("slug", Value.vStr "p2"),
    ("name", Value.vStr "Solvent X"), ("category", Value.vStr "solvents")]]

/-- The first sample record with its internal identifier stripped. -/
def sampleOut : Doc :=
  [("slug", Value.vStr "p1"), ("name", Value.vStr "Acid Cleaner"),
   ("category", Value.vStr "cleaners")]

/-! ## Claims -/

/-- C1: for every record returned by any endpoint, the store-internal
identifier field `_id` is absent from the response body. -/
theorem c1_internal_id_absent (store : List Doc)
    (category q tag product language department : Option String)
    (slug : String) :
    (∀ d ∈ list_categories store, lookupField d "_id" = none) ∧
    (∀ d ∈ list_products store category q, lookupField d "_id" = none) ∧
    (∀ d, get_product store slug = Except.ok d → lookupField d "_id" = none) ∧
    (∀ d ∈ list_sectors store, lookupField d "_id" = none) ∧
    (∀ d, get_sector store slug = Except.ok d → lookupField d "_id" = none) ∧
    (∀ d ∈ list_news store tag, lookupField d "_id" = none) ∧
    (∀ d ∈ list_documents store product category language,
      lookupField d "_id" = none) ∧
    (∀ d ∈ list_jobs store department, lookupField d "_id" = none) ∧
    lookupField (get_company store) "_id" = none := by
  refine ⟨fun d hd => mem_serialize_list_no_id hd,
    fun d hd => mem_serialize_list_no_id hd, ?_,
    fun d hd => mem_serialize_list_no_id hd, ?_,
    fun d hd => mem_serialize_list_no_id hd,
    fun d hd => mem_serialize_list_no_id hd,
    fun d hd => mem_serialize_list_no_id hd, ?_⟩
  · intro d h
    unfold get_product at h
    split at h
    · simp at h
    · simp only [Except.ok.injEq] at h
      rw [← h]
      exact lookupField_popId _
  · intro d h
    unfold get_sector at h
    split at h
    · simp at h
    · simp only [Except.ok.injEq] at h
      rw [← h]
      exact lookupField_popId _
  · unfold get_company
    split
    · rfl
    · exact lookupField_popId _

/-- Witness for C1 at the sample store: the single-product lookup and the
company profile carry no `_id`. -/
theorem c1_internal_id_absent_witness :
    lookupField sampleOut "_id" = none ∧
    lookupField (get_company sampleStore) "_id" = none :=
  ⟨(c1_internal_id_absent sampleStore none none none none none none
      "p1").2.2.1 sampleOut (by rfl),
   (c1_internal_id_absent sampleStore none none none none none none
      "p1").2.2.2.2.2.2.2.2⟩

/-- C6: `GET /api/company` on an empty `companyprofile` collection returns
exactly `{"company_name": "Azienda Chimica"}`, and on any store it returns a
document (the fallback or a stored profile) — never a 404. -/
theorem c6_company_fallback :
    get_company [] = [("company_name", Value.vStr "Azienda Chimica")] ∧
    ∀ store : List Doc,
      get_company store = [("company_name", Value.vStr "Azienda Chimica")] ∨
      ∃ d ∈ store, get_company store = popId d := by
  refine ⟨rfl, ?_⟩
  intro store
  cases store with
  | nil => exact Or.inl rfl
  | cons d t => exact Or.inr ⟨d, List.mem_cons_self d t, rfl⟩

/-- C10: for every list endpoint, an empty-string query parameter behaves
exactly like an omitted one (Python falsiness of `""` in the handlers). -/
theorem c10_empty_param_like_omitted (store : List Doc) :
    (∀ q, list_products store (some "") q = list_products store none q) ∧
    (∀ category, list_products store category (some "") =
      list_products store category none) ∧
    list_news store (some "") = list_news store none ∧
    (∀ category language, list_documents store (some "") category language =
      list_documents store none category language) ∧
    (∀ product language, list_documents store product (some "") language =
      list_documents store product none language) ∧
    (∀ product category, list_documents store product category (some "") =
      list_documents store product category none) ∧
    list_jobs store (some "") = list_jobs store none :=
  ⟨fun _ => rfl, fun _ => rfl, rfl, fun _ _ => rfl, fun _ _ => rfl,
   fun _ _ => rfl, rfl⟩

/-! ## Filter characterizations (C2, C3, C5) -/

/-- A field is present and holds a string value. -/
def fieldIsStr (d : Doc) (f : String) : Bool :=
  match lookupField d f with
  | some (Value.vStr _) => true
  | _ => false

/-- A field is present and holds a list value. -/
def fieldIsList (d : Doc) (f : String) : Bool :=
  match lookupField d f with
  | some (Value.vList _) => true
  | _ => false

/-- Claim-side predicate for C5: the stored `tags` list contains `T`. -/
def tagsContain (d : Doc) (T : String) : Bool :=
  match lookupField d "tags" with
  | some (Value.vList l) => l.contains T
  | _ => false

/-- C2: `GET /api/products?q=Y` (for a non-empty `Y`) returns exactly the
stored products in which `Y` appears, case-insensitively, as a substring of
at least one of the fields name, summary, description, or keywords, each
serialized with its internal identifier stripped, in store order. -/
theorem c2_q_substring_search (store : List Doc) (Y : String) (hY : Y ≠ "") :
    list_products store none (some Y) =
      serialize_list (store.filter
        (fun d => matchesSubstrAny d productSearchFields Y)) := by
  unfold list_products
  simp [truthy, hY, get_documents, List.all_cons, List.all_nil, matchesCond]

/-- Witness for C2 at a concrete store and query. -/
theorem c2_q_substring_search_witness :
    list_products sampleStore none (some "acid") =
      serialize_list (sampleStore.filter
        (fun d => matchesSubstrAny d productSearchFields "acid")) :=
  c2_q_substring_search sampleStore "acid" (by decide)

/-- C3: `GET /api/products?category=X` (for a non-empty `X`, on a store whose
products carry a string-valued `category`) returns exactly the stored
products whose `category` equals `X`, compared case-sensitively. -/
theorem c3_category_exact (store : List Doc) (X : String) (hX : X ≠ "")
    (hwf : ∀ d ∈ store, fieldIsStr d "category" = true) :
    list_products store (some X) none =
      serialize_list (store.filter
        (fun d => lookupField d "category" == some (Value.vStr X))) := by
  have step : list_products store (some X) none =
      serialize_list (store.filter (fun d => matchesEq d "category" X)) := by
    unfold list_products
    simp [truthy, hX, get_documents, List.all_cons, List.all_nil, matchesCond]
  rw [step]
  unfold serialize_list
  congr 1
  apply List.filter_congr
  intro d hd
  have h := hwf d hd
  unfold fieldIsStr at h
  unfold matchesEq
  cases hl : lookupField d "category" with
  | none => rw [hl] at h; simp at h
  | some v =>
      cases v with
      | vStr s =>
          by_cases hs : s = X
          · subst hs; simp
          · simp [hs]
      | vList l => rw [hl] at h; simp at h
      | vNull => rw [hl] at h; simp at h

/-- Witness for C3 at a concrete store and category. -/
theorem c3_category_exact_witness :
    list_products sampleStore (some "cleaners") none =
      serialize_list (sampleStore.filter
        (fun d => lookupField d "category" == some (Value.vStr "cleaners"))) :=
  c3_category_exact sampleStore "cleaners" (by decide) (by decide)

/-- A small concrete news store used to instantiate the theorems. -/
def newsStore : List Doc :=
  [[("_id", Value.vStr "n1"), ("slug", Value.vStr "a"),
    ("title", Value.vStr "Opening"), ("tags", Value.vList ["eco", "new"])],
   [("_id", Value.vStr "n2"), ("slug", Value.vStr "b"),
    ("title", Value.vStr "Award"), ("tags", Value.vList ["press"])]]

/-- C5: `GET /api/news?tag=T` (for a non-empty `T`, on a store whose news
records carry a list-valued `tags` field) returns exactly the stored news
records whose `tags` list contains `T` as a member. -/
theorem c5_news_tag_membership (store : List Doc) (T : String) (hT : T ≠ "")
    (hwf : ∀ d ∈ store, fieldIsList d "tags" = true) :
    list_news store (some T) =
      serialize_list (store.filter (fun d => tagsContain d T)) := by
  have step : list_news store (some T) =
      serialize_list (store.filter (fun d => matchesEq d "tags" T)) := by
    unfold list_news
    simp [truthy, hT, get_documents, List.all_cons, List.all_nil, matchesCond]
  rw [step]
  unfold serialize_list
  congr 1
  apply List.filter_congr
  intro d hd
  have h := hwf d hd
  unfold fieldIsList at h
  unfold matchesEq tagsContain
  cases hl : lookupField d "tags" with
  | none => rw [hl] at h
  | some v =>
      cases v with
      | vStr s => rw [hl] at h; simp at h
      | vList l => rfl
      | vNull => rw [hl] at h

/-- Witness for C5 at a concrete store and tag. -/
theorem c5_news_tag_membership_witness :
    list_news newsStore (some "eco") =
      serialize_list (newsStore.filter (fun d => tagsContain d "eco")) :=
  c5_news_tag_membership newsStore "eco" (by decide) (by decide)

/-! ## Single-item lookup (C4) -/

/-- Truncating a filtered list to one element yields the first match. -/
theorem filter_take_one_some {p : Doc → Bool} {a : Doc} :
    ∀ {l : List Doc}, l.find? p = some a → (l.filter p).take 1 = [a] := by
  intro l h
  induction l with
  | nil => simp at h
  | cons x t ih =>
      by_cases hx : p x = true
      · rw [List.find?_cons_of_pos _ hx] at h
        simp only [Option.some.injEq] at h
        subst h
        simp [List.filter_cons, hx]
      · rw [List.find?_cons_of_neg _ hx] at h
        simp [List.filter_cons, hx, ih h]

/-- Truncating a filtered list to one element yields nothing when there is
no match. -/
theorem filter_take_one_none {p : Doc → Bool} :
    ∀ {l : List Doc}, l.find? p = none → (l.filter p).take 1 = [] := by
  intro l h
  rw [List.find?_eq_none] at h
  have : l.filter p = [] := List.filter_eq_nil_iff.mpr h
  simp [this]

/-- C4: `GET /api/products/{slug}` returns HTTP 404 with detail
`"Product not found"` exactly when no stored product matches the slug;
when a match exists, the first matching record is returned (serialized)
and no 404 is raised. -/
theorem c4_product_not_found (store : List Doc) (slug : String) :
    (store.find? (fun d => matchesEq d "slug" slug) = none →
      get_product store slug = Except.error (404, "Product not found")) ∧
    ∀ d, store.find? (fun d => matchesEq d "slug" slug) = some d →
      get_product store slug = Except.ok (popId d) := by
  have hgd : get_documents store [Cond.eq "slug" slug] (some 1) =
      (store.filter (fun d => matchesEq d "slug" slug)).take 1 := by
    simp [get_documents, List.all_cons, List.all_nil, matchesCond]
  constructor
  · intro h
    unfold get_product
    rw [hgd, filter_take_one_none h]
  · intro d h
    unfold get_product
    rw [hgd, filter_take_one_some h]

/-- Witness for C4: a missing slug 404s, an existing slug returns the first
match with its internal identifier stripped. -/
theorem c4_product_not_found_witness :
    get_product sampleStore "zz" = Except.error (404, "Product not found") ∧
    get_product sampleStore "p1" =
      Except.ok (popId [("_id", Value.vStr "65a1"), ("slug", Value.vStr "p1"),
        ("name", Value.vStr "Acid Cleaner"),
        ("category", Value.vStr "cleaners")]) :=
  ⟨(c4_product_not_found sampleStore "zz").1 (by decide),
   (c4_product_not_found sampleStore "p1").2 _ (by decide)⟩

/-! ## Write-endpoint validation (C7) -/

/-- A validation error on the left argument propagates through `vPair`,
keeping every offending field. -/
theorem vPair_error_left {α β : Type} {e : List String} {x : String}
    {a : Except (List String) α} (ha : a = Except.error e) (hx : x ∈ e)
    (b : Except (List String) β) :
    ∃ m, vPair a b = Except.error m ∧ x ∈ m := by
  subst ha
  cases b with
  | ok vb => exact ⟨e, rfl, hx⟩
  | error eb => exact ⟨e ++ eb, rfl, List.mem_append_left _ hx⟩

/-- A validation error on the right argument propagates through `vPair`,
keeping every offending field. -/
theorem vPair_error_right {α β : Type} {e : List String} {x : String}
    (a : Except (List String) α)
    {b : Except (List String) β} (hb : b = Except.error e) (hx : x ∈ e) :
    ∃ m, vPair a b = Except.error m ∧ x ∈ m := by
  subst hb
  cases a with
  | ok va => exact ⟨e, rfl, hx⟩
  | error ea => exact ⟨ea ++ e, rfl, List.mem_append_right _ hx⟩

/-- C7: `POST /api/applications` with a body missing the required `email`
field fails validation (the schema layer rejects it, naming `email` among
the offending fields) and leaves the `application` collection unchanged. -/
theorem c7_missing_email (store : List Doc) (input : Doc)
    (h : lookupField input "email" = none) :
    (submit_application store input).1 = store ∧
    ∃ errs, (submit_application store input).2 =
      SubmitResult.validationError errs ∧ "email" ∈ errs := by
  have hemail : getReqStr input "email" = Except.error ["email"] := by
    unfold getReqStr
    rw [h]
  obtain ⟨e1, he1, hx1⟩ :=
    vPair_error_right (getReqStr input "name") hemail (List.mem_singleton.mpr rfl)
  obtain ⟨e2, he2, hx2⟩ :=
    vPair_error_left he1 hx1 (vPair (getOptStr input "phone") (getOptStr input "job_slug"))
  obtain ⟨e3, he3, hx3⟩ :=
    vPair_error_left he2 hx2 (vPair (getOptStr input "message")
      (vPair (getOptStr input "cv_url") (getOptStr input "linkedin_url")))
  have hval : validateApplication input = Except.error e3 := by
    unfold validateApplication
    rw [he3]
  unfold submit_application
  rw [hval]
  exact ⟨rfl, e3, rfl, hx3⟩

/-- Witness for C7: a body carrying only `name` is rejected without
touching the store. -/
theorem c7_missing_email_witness :
    (submit_application [] [("name", Value.vStr "Bob")]).1 = [] ∧
    ∃ errs, (submit_application [] [("name", Value.vStr "Bob")]).2 =
      SubmitResult.validationError errs ∧ "email" ∈ errs :=
  c7_missing_email [] [("name", Value.vStr "Bob")] (by rfl)

/-! ## Optional list defaults (C9) -/

/-- `vPair` succeeds exactly when both sides succeed with the paired values. -/
theorem vPair_ok {α β : Type} {a : Except (List String) α}
    {b : Except (List String) β} {x : α} {y : β}
    (h : vPair a b = Except.ok (x, y)) :
    a = Except.ok x ∧ b = Except.ok y := by
  cases a with
  | error ea =>
      cases b with
      | error eb => simp [vPair] at h
      | ok vb => simp [vPair] at h
  | ok va =>
      cases b with
      | error eb => simp [vPair] at h
      | ok vb =>
          simp only [vPair, Except.ok.injEq, Prod.mk.injEq] at h
          exact ⟨by rw [h.1], by rw [h.2]⟩

/-- A list field absent from the input validates to the empty-list default. -/
theorem getOptList_absent {input : Doc} {f : String}
    (h : lookupField input f = none) :
    getOptList input f = Except.ok (some []) := by
  unfold getOptList
  rw [h]

/-- Inversion of `validateProduct`: a successful validation pins every
list-valued component to the result of its field validator. -/
theorem validateProduct_ok_lists {input : Doc} {p : Product}
    (h : validateProduct input = Except.ok p) :
    getOptList input "applications" = Except.ok p.applications ∧
    getOptList input "benefits" = Except.ok p.benefits ∧
    getOptList input "sectors" = Except.ok p.sectors ∧
    getOptList input "documentation_urls" = Except.ok p.documentation_urls ∧
    getOptList input "keywords" = Except.ok p.keywords := by
  unfold validateProduct at h
  split at h
  · simp at h
  · rename_i heq
    simp only [Except.ok.injEq] at h
    obtain ⟨hA, hY⟩ := vPair_ok heq
    obtain ⟨hB, hC⟩ := vPair_ok hY
    obtain ⟨hDeAp, hBeSe⟩ := vPair_ok hB
    obtain ⟨_, hap⟩ := vPair_ok hDeAp
    obtain ⟨hbe, hse⟩ := vPair_ok hBeSe
    obtain ⟨hDuKe, _⟩ := vPair_ok hC
    obtain ⟨hdu, hke⟩ := vPair_ok hDuKe
    rw [← h]
    exact ⟨hap, hbe, hse, hdu, hke⟩

/-- Inversion of `validateJob`: a successful validation pins the
`requirements` component to the result of its field validator. -/
theorem validateJob_ok_lists {input : Doc} {j : Job}
    (h : validateJob input = Except.ok j) :
    getOptList input "requirements" = Except.ok j.requirements := by
  unfold validateJob at h
  split at h
  · simp at h
  · rename_i heq
    simp only [Except.ok.injEq] at h
    obtain ⟨_, hY⟩ := vPair_ok heq
    obtain ⟨_, hDeRe⟩ := vPair_ok hY
    obtain ⟨_, hre⟩ := vPair_ok hDeRe
    rw [← h]
    exact hre

/-- Inversion of `validateSector`: a successful validation pins every
list-valued component to the result of its field validator. -/
theorem validateSector_ok_lists {input : Doc} {s : Sector}
    (h : validateSector input = Except.ok s) :
    getOptList input "challenges" = Except.ok s.challenges ∧
    getOptList input "needs" = Except.ok s.needs ∧
    getOptList input "solutions" = Except.ok s.solutions ∧
    getOptList input "outcomes" = Except.ok s.outcomes := by
  unfold validateSector at h
  split at h
  · simp at h
  · rename_i heq
    simp only [Except.ok.injEq] at h
    obtain ⟨hA, hB⟩ := vPair_ok heq
    obtain ⟨_, hChNe⟩ := vPair_ok hA
    obtain ⟨hch, hne⟩ := vPair_ok hChNe
    obtain ⟨hso, hOuIm⟩ := vPair_ok hB
    obtain ⟨hou, _⟩ := vPair_ok hOuIm
    rw [← h]
    exact ⟨hch, hne, hso, hou⟩

/-- Inversion of `validateNews`: a successful validation pins the `tags`
component to the result of its field validator. -/
theorem validateNews_ok_lists {input : Doc} {n : News}
    (h : validateNews input = Except.ok n) :
    getOptList input "tags" = Except.ok n.tags := by
  unfold validateNews at h
  split at h
  · simp at h
  · rename_i heq
    simp only [Except.ok.injEq] at h
    obtain ⟨_, hB⟩ := vPair_ok heq
    obtain ⟨_, hPaTg⟩ := vPair_ok hB
    obtain ⟨_, htg⟩ := vPair_ok hPaTg
    rw [← h]
    exact htg

/-- Inversion of `validateCompanyProfile`: a successful validation pins
every list-valued component to the result of its field validator. -/
theorem validateCompanyProfile_ok_lists {input : Doc} {c : CompanyProfile}
    (h : validateCompanyProfile input = Except.ok c) :
    getOptList input "values" = Except.ok c.values ∧
    getOptList input "facilities" = Except.ok c.facilities ∧
    getOptList input "locations" = Except.ok c.locations := by
  unfold validateCompanyProfile at h
  split at h
  · simp at h
  · rename_i heq
    simp only [Except.ok.injEq] at h
    obtain ⟨hA, hB⟩ := vPair_ok heq
    obtain ⟨_, hViVa⟩ := vPair_ok hA
    obtain ⟨_, hva⟩ := vPair_ok hViVa
    obtain ⟨hHiFa, hC⟩ := vPair_ok hB
    obtain ⟨_, hfa⟩ := vPair_ok hHiFa
    obtain ⟨hLoQa, _⟩ := vPair_ok hC
    obtain ⟨hlo, _⟩ := vPair_ok hLoQa
    rw [← h]
    exact ⟨hva, hfa, hlo⟩

/-- C9: optional list fields omitted from the input validate to the empty
list — never null and never absent — in the resulting record, for every
optional list field of every entity schema that has one: `Product`,
`Sector`, `News`, `Job` and `CompanyProfile` (the remaining schemas have no
list-typed fields). -/
theorem c9_optional_lists_default (input : Doc) :
    (∀ p, validateProduct input = Except.ok p →
      (lookupField input "applications" = none → p.applications = some []) ∧
      (lookupField input "benefits" = none → p.benefits = some []) ∧
      (lookupField input "sectors" = none → p.sectors = some []) ∧
      (lookupField input "documentation_urls" = none →
        p.documentation_urls = some []) ∧
      (lookupField input "keywords" = none → p.keywords = some [])) ∧
    (∀ s, validateSector input = Except.ok s →
      (lookupField input "challenges" = none → s.challenges = some []) ∧
      (lookupField input "needs" = none → s.needs = some []) ∧
      (lookupField input "solutions" = none → s.solutions = some []) ∧
      (lookupField input "outcomes" = none → s.outcomes = some [])) ∧
    (∀ n, validateNews input = Except.ok n →
      lookupField input "tags" = none → n.tags = some []) ∧
    (∀ j, validateJob input = Except.ok j →
      lookupField input "requirements" = none → j.requirements = some []) ∧
    ∀ c, validateCompanyProfile input = Except.ok c →
      (lookupField input "values" = none → c.values = some []) ∧
      (lookupField input "facilities" = none → c.facilities = some []) ∧
      (lookupField input "locations" = none → c.locations = some []) := by
  refine ⟨?_, ?_, ?_, ?_, ?_⟩
  · intro p hp
    obtain ⟨hap, hbe, hse, hdu, hke⟩ := validateProduct_ok_lists hp
    refine ⟨fun ha => ?_, fun ha => ?_, fun ha => ?_, fun ha => ?_, fun ha => ?_⟩
    · rw [getOptList_absent ha] at hap
      simpa using hap.symm
    · rw [getOptList_absent ha] at hbe
      simpa using hbe.symm
    · rw [getOptList_absent ha] at hse
      simpa using hse.symm
    · rw [getOptList_absent ha] at hdu
      simpa using hdu.symm
    · rw [getOptList_absent ha] at hke
      simpa using hke.symm
  · intro s hs
    obtain ⟨hch, hne, hso, hou⟩ := validateSector_ok_lists hs
    refine ⟨fun ha => ?_, fun ha => ?_, fun ha => ?_, fun ha => ?_⟩
    · rw [getOptList_absent ha] at hch
      simpa using hch.symm
    · rw [getOptList_absent ha] at hne
      simpa using hne.symm
    · rw [getOptList_absent ha] at hso
      simpa using hso.symm
    · rw [getOptList_absent ha] at hou
      simpa using hou.symm
  · intro n hn ha
    have htg := validateNews_ok_lists hn
    rw [getOptList_absent ha] at htg
    simpa using htg.symm
  · intro j hj ha
    have hre := validateJob_ok_lists hj
    rw [getOptList_absent ha] at hre
    simpa using hre.symm
  · intro c hc
    obtain ⟨hva, hfa, hlo⟩ := validateCompanyProfile_ok_lists hc
    refine ⟨fun ha => ?_, fun ha => ?_, fun ha => ?_⟩
    · rw [getOptList_absent ha] at hva
      simpa using hva.symm
    · rw [getOptList_absent ha] at hfa
      simpa using hfa.symm
    · rw [getOptList_absent ha] at hlo
      simpa using hlo.symm

/-- Witness for C9: for each of the five schemas, validating a body that
carries only the required fields yields a record whose optional list fields
are all the empty list. -/
theorem c9_optional_lists_default_witness :
    (Product.mk "Acid" "acid" "cleaners" none none (some []) (some [])
      (some []) (some []) (some []) none).keywords = some [] ∧
    (Sector.mk "Tanning" "tanning" (some []) (some []) (some []) (some [])
      none).challenges = some [] ∧
    (News.mk "Hello" "hello" none none none none (some [])).tags = some [] ∧
    (Job.mk "Chemist" "chemist" none none none none
      (some [])).requirements = some [] ∧
    (CompanyProfile.mk "ACME" none none (some []) none (some []) (some [])
      none none none).values = some [] :=
  ⟨(((c9_optional_lists_default
      [("name", Value.vStr "Acid"), ("slug", Value.vStr "acid"),
       ("category", Value.vStr "cleaners")]).1
      (Product.mk "Acid" "acid" "cleaners" none none (some []) (some [])
        (some []) (some []) (some []) none) (by rfl)).2.2.2.2 (by rfl)),
   (((c9_optional_lists_default
      [("name", Value.vStr "Tanning"), ("slug", Value.vStr "tanning")]).2.1
      (Sector.mk "Tanning" "tanning" (some []) (some []) (some []) (some [])
        none) (by rfl)).1 (by rfl)),
   ((c9_optional_lists_default
      [("title", Value.vStr "Hello"), ("slug", Value.vStr "hello")]).2.2.1
      (News.mk "Hello" "hello" none none none none (some []))
      (by rfl) (by rfl)),
   ((c9_optional_lists_default
      [("title", Value.vStr "Chemist"), ("slug", Value.vStr "chemist")]).2.2.2.1
      (Job.mk "Chemist" "chemist" none none none none (some []))
      (by rfl) (by rfl)),
   (((c9_optional_lists_default
      [("company_name", Value.vStr "ACME")]).2.2.2.2
      (CompanyProfile.mk "ACME" none none (some []) none (some []) (some [])
        none none none) (by rfl)).1 (by rfl))⟩

/-! ## Diagnostic endpoint (C8) -/

/-- Truncating a string to 50 characters yields at most 50 characters. -/
theorem take50_length_le (e : String) : (e.take 50).length ≤ 50 := by
  rw [String.take_eq]
  show (e.1.take 50).length ≤ 50
  exact List.length_take_le 50 e.1

/-- C8: `GET /test` answers for every state of the store connection — unset,
connected, or the probe raising — always reporting a live backend, listing
at most the first 10 collection names, and rendering a probe failure as a
status string whose error text is truncated to at most 50 characters. -/
theorem c8_test_endpoint (db : Option DbConn) (url_set name_set : Bool) :
    (test_database db url_set name_set).backend = "✅ Running" ∧
    (test_database db url_set name_set).collections.length ≤ 10 ∧
    (∀ conn cols, db = some conn → conn.collectionsResult = Except.ok cols →
      (test_database db url_set name_set).collections = cols.take 10) ∧
    (∀ conn e, db = some conn → conn.collectionsResult = Except.error e →
      ∃ t, t.length ≤ 50 ∧
        (test_database db url_set name_set).database =
          "⚠️  Connected but Error: " ++ t) := by
  cases db with
  | none =>
      refine ⟨rfl, by simp [test_database], ?_, ?_⟩
      · intro conn cols h1 _
        simp at h1
      · intro conn e h1 _
        simp at h1
  | some conn =>
      obtain ⟨nm, res⟩ := conn
      cases res with
      | ok cols =>
          refine ⟨rfl, ?_, ?_, ?_⟩
          · show (cols.take 10).length ≤ 10
            exact List.length_take_le 10 cols
          · intro conn' cols' h1 h2
            simp only [Option.some.injEq] at h1
            rw [← h1] at h2
            simp only [Except.ok.injEq] at h2
            rw [← h2]
            rfl
          · intro conn' e h1 h2
            simp only [Option.some.injEq] at h1
            rw [← h1] at h2
            simp at h2
      | error e =>
          refine ⟨rfl, by simp [test_database], ?_, ?_⟩
          · intro conn' cols' h1 h2
            simp only [Option.some.injEq] at h1
            rw [← h1] at h2
            simp at h2
          · intro conn' e' h1 h2
            simp only [Option.some.injEq] at h1
            rw [← h1] at h2
            simp only [Except.error.injEq] at h2
            exact ⟨e'.take 50, take50_length_le e', by rw [← h2]; rfl⟩

/-- Witness for C8: a connection whose probe raises a long error is
rendered as a truncated status string; a healthy connection lists at most
its first 10 collections. -/
theorem c8_test_endpoint_witness :
    (∃ t, t.length ≤ 50 ∧
      (test_database (some ⟨some "mydb", Except.error "boom"⟩) true true).database =
        "⚠️  Connected but Error: " ++ t) ∧
    (test_database (some ⟨some "mydb",
      Except.ok ["a", "b", "c"]⟩) true false).collections = ["a", "b", "c"].take 10 :=
  ⟨(c8_test_endpoint (some ⟨some "mydb", Except.error "boom"⟩) true
      true).2.2.2 ⟨some "mydb", Except.error "boom"⟩ "boom" rfl rfl,
   (c8_test_endpoint (some ⟨some "mydb", Except.ok ["a", "b", "c"]⟩) true
      false).2.2.1 ⟨some "mydb", Except.ok ["a", "b", "c"]⟩ ["a", "b", "c"]
      rfl rfl⟩
